import Mathlib

/-!
Shallow embedding of the resume-screening application
(`app.py`, `src/extract_text.py`, `src/resume_screening.py`).

Conventions of the embedding:
* byte sequences are `List Nat` (each element below 256);
* Python strings are Lean `String`;
* library calls whose behaviour is supplied by the environment
  (filesystem, document parsers, `json.loads`, the Gemini API) are
  explicit function parameters, so the embedded code stays pure;
* Python exceptions become `Except` results, and the Streamlit UI is a
  trace of events emitted by one run of the script.
-/

namespace ResumeScreening

/-- Whitespace predicate matching the character class stripped by the
Python method `str.strip()` (ASCII whitespace, the C1 separators and the
Unicode space characters). -/
def pyIsSpace (c : Char) : Bool :=
  let n := c.toNat
  (9 ≤ n && n ≤ 13) || n == 32 || (28 ≤ n && n ≤ 31) || n == 133 ||
    n == 160 || n == 0x1680 || (0x2000 ≤ n && n ≤ 0x200A) || n == 0x2028 ||
    n == 0x2029 || n == 0x202F || n == 0x205F || n == 0x3000

/-- Strip leading and trailing whitespace from a character list, as the
Python method `str.strip()` does. -/
def stripChars (l : List Char) : List Char :=
  ((l.dropWhile pyIsSpace).reverse.dropWhile pyIsSpace).reverse

/-- Embedding of the Python method `str.strip()`. -/
def pyStrip (s : String) : String :=
  String.mk (stripChars s.data)

/-- Replace every non-overlapping occurrence of `pat` (scanning left to
right) by `rep`, as the Python method `str.replace` does for a non-empty
pattern.  (The program only uses non-empty patterns.)  The first
argument is recursion fuel, instantiated with the length of the list;
each step consumes at least one list element and one unit of fuel, so
the fuel-exhausted branch is never reached from `replaceChars`. -/
def replaceGo (pat rep : List Char) : Nat → List Char → List Char
  | _, [] => []
  | 0, l => l
  | fuel + 1, c :: rest =>
    if pat.isPrefixOf (c :: rest) && !pat.isEmpty then
      rep ++ replaceGo pat rep fuel (List.drop (pat.length - 1) rest)
    else
      c :: replaceGo pat rep fuel rest

/-- Replacement at every position of a character list. -/
def replaceChars (pat rep l : List Char) : List Char :=
  replaceGo pat rep l.length l

/-- Embedding of the Python method `str.replace` (non-empty pattern). -/
def pyReplace (s pat rep : String) : String :=
  String.mk (replaceChars pat.data rep.data s.data)

/-- Line 94 of `app.py`: `result_text.replace("```json\n", "").replace("```", "").strip()`. -/
def cleanResult (result_text : String) : String :=
  pyStrip (pyReplace (pyReplace result_text "```json\n" "") "```" "")

/-- Strict UTF-8 decoding of a byte sequence into Unicode code points,
as the Python call `bytes.decode("utf-8")` performs it: rejects stray
continuation bytes, overlong forms, surrogate code points and values
above U+10FFFF.  `none` corresponds to `UnicodeDecodeError`. -/
def utf8Decode : List Nat → Option (List Nat)
  | [] => some []
  | b :: rest =>
    if b < 0x80 then
      (utf8Decode rest).map (fun cs => b :: cs)
    else if b < 0xC2 then
      none
    else if b < 0xE0 then
      match rest with
      | b1 :: rest1 =>
        if 0x80 ≤ b1 && b1 < 0xC0 then
          (utf8Decode rest1).map (fun cs => ((b - 0xC0) * 0x40 + (b1 - 0x80)) :: cs)
        else none
      | [] => none
    else if b < 0xF0 then
      match rest with
      | b1 :: b2 :: rest2 =>
        let lo1 := if b == 0xE0 then 0xA0 else 0x80
        let hi1 := if b == 0xED then 0xA0 else 0xC0
        if lo1 ≤ b1 && b1 < hi1 && 0x80 ≤ b2 && b2 < 0xC0 then
          (utf8Decode rest2).map
            (fun cs => ((b - 0xE0) * 0x1000 + (b1 - 0x80) * 0x40 + (b2 - 0x80)) :: cs)
        else none
      | _ => none
    else if b < 0xF5 then
      match rest with
      | b1 :: b2 :: b3 :: rest3 =>
        let lo1 := if b == 0xF0 then 0x90 else 0x80
        let hi1 := if b == 0xF4 then 0x90 else 0xC0
        if lo1 ≤ b1 && b1 < hi1 && 0x80 ≤ b2 && b2 < 0xC0 && 0x80 ≤ b3 && b3 < 0xC0 then
          (utf8Decode rest3).map
            (fun cs =>
              ((b - 0xF0) * 0x40000 + (b1 - 0x80) * 0x1000 + (b2 - 0x80) * 0x40 +
                (b3 - 0x80)) :: cs)
        else none
      | _ => none
    else none

/-- Remove the UTF-8 byte-order mark, as the codec `utf-8-sig` does
before decoding. -/
def stripBOM : List Nat → List Nat
  | 0xEF :: 0xBB :: 0xBF :: rest => rest
  | bs => bs

/-- Decoding table of the codec `cp1252` (alias `windows-1252`): bytes
0x00 to 0x7F and 0xA0 to 0xFF map to themselves, bytes 0x80 to 0x9F map
through the Windows-1252 table, and the five unassigned bytes raise
`UnicodeDecodeError` (`none` here). -/
def cp1252Map (b : Nat) : Option Nat :=
  if b < 0x80 || (0xA0 ≤ b && b < 0x100) then some b
  else
    match b with
    | 0x80 => some 0x20AC
    | 0x82 => some 0x201A
    | 0x83 => some 0x0192
    | 0x84 => some 0x201E
    | 0x85 => some 0x2026
    | 0x86 => some 0x2020
    | 0x87 => some 0x2021
    | 0x88 => some 0x02C6
    | 0x89 => some 0x2030
    | 0x8A => some 0x0160
    | 0x8B => some 0x2039
    | 0x8C => some 0x0152
    | 0x8E => some 0x017D
    | 0x91 => some 0x2018
    | 0x92 => some 0x2019
    | 0x93 => some 0x201C
    | 0x94 => some 0x201D
    | 0x95 => some 0x2022
    | 0x96 => some 0x2013
    | 0x97 => some 0x2014
    | 0x98 => some 0x02DC
    | 0x99 => some 0x2122
    | 0x9A => some 0x0161
    | 0x9B => some 0x203A
    | 0x9C => some 0x0153
    | 0x9E => some 0x017E
    | 0x9F => some 0x0178
    | _ => none

/-- Decode a whole byte sequence with the `cp1252` table. -/
def cp1252Decode (bs : List Nat) : Option (List Nat) :=
  bs.mapM cp1252Map

/-- Turn a list of Unicode code points into a `String`.  Every code
point produced by the decoders below is a valid scalar value. -/
def toStr (cs : List Nat) : String :=
  String.mk (cs.map Char.ofNat)

/-- The five encoding names tried by `app.py` line 62
(`encodings_to_try`), in source order. -/
inductive Encoding where
  | utf8
  | utf8sig
  | windows1252
  | iso8859_1
  | cp1252
deriving DecidableEq

/-- Embedding of `bytes.decode(encoding)` for each encoding of the candidate list:
`some` is a successful decode, `none` is `UnicodeDecodeError`.
`windows-1252` is an alias of `cp1252`; `iso-8859-1` maps every byte to
the code point of equal value and never fails. -/
def decodeWith : Encoding → List Nat → Option String
  | .utf8, bs => (utf8Decode bs).map toStr
  | .utf8sig, bs => (utf8Decode (stripBOM bs)).map toStr
  | .windows1252, bs => (cp1252Decode bs).map toStr
  | .iso8859_1, bs => some (toStr bs)
  | .cp1252, bs => (cp1252Decode bs).map toStr

/-- Line 62 of `app.py`: the fixed candidate list `encodings_to_try`, holding utf-8, utf-8-sig, windows-1252, iso-8859-1 and cp1252 in source order. -/
def encodingsToTry : List Encoding :=
  [.utf8, .utf8sig, .windows1252, .iso8859_1, .cp1252]

/-- The for-loop of `app.py` lines 65 to 70: try each encoding in turn,
keep the first successful decode, `none` when every attempt raised. -/
def decodeLoopAux : List Encoding → List Nat → Option String
  | [], _ => none
  | e :: es, bs =>
    match decodeWith e bs with
    | some t => some t
    | none => decodeLoopAux es bs

/-- The decode loop of `app.py` applied to the fixed candidate list:
the value of `jd_text` after the loop. -/
def decodeLoop (bs : List Nat) : Option String :=
  decodeLoopAux encodingsToTry bs

/-- Embedding of the Python method `str.lower` (ASCII case folding is
all the extension checks need). -/
def pyLower (s : String) : String :=
  String.mk (s.data.map Char.toLower)

/-- Embedding of the Python method `str.endswith`. -/
def pyEndsWith (s suffix : String) : Bool :=
  suffix.data.isSuffixOf s.data

/-- Environment for `extract_text.py`: the filesystem check
`os.path.exists`, the parser `docx.Document` (paragraph texts on
success, exception message on failure) and the parser `pypdf.PdfReader`
(per-page result of `page.extract_text()`, where `none` is a page with
no text object, on success; exception message on failure). -/
structure ExtractEnv where
  fileExists : String → Bool
  docxParse : String → Except String (List String)
  pdfParse : String → Except String (List (Option String))

/-- Embedding of `extract_text_from_file` (`src/extract_text.py` lines
5 to 40): dispatch on existence and lowercased filename extension,
join paragraph or page texts with newlines, fall back to placeholder
strings, and turn any parser exception into an error string. -/
def extract_text_from_file (env : ExtractEnv) (file_path : String) : String :=
  if !env.fileExists file_path then
    "File not found."
  else if pyEndsWith (pyLower file_path) ".docx" then
    match env.docxParse file_path with
    | .ok paras =>
      let text := String.intercalate "\n" (paras.filter (fun p => pyStrip p != ""))
      if pyStrip text == "" then "No text found in document." else text
    | .error e => "Error extracting text: " ++ e
  else if pyEndsWith (pyLower file_path) ".pdf" then
    match env.pdfParse file_path with
    | .ok pages =>
      let text_pages := (pages.filterMap id).filter (fun t => t != "")
      let full_text := String.intercalate "\n" text_pages
      if pyStrip full_text == "" then "No text found in PDF." else full_text
    | .error e => "Error extracting text: " ++ e
  else
    "Unsupported file format. Please use PDF or DOCX."

/-- The two exception kinds raised by `screen_resume`
(`src/resume_screening.py`): the `ValueError` guard on empty inputs and
the wrapped Gemini API exception. -/
inductive ScreenErr where
  | valueError (msg : String)
  | apiError (msg : String)

/-- Message carried by a `screen_resume` exception. -/
def screenErrMsg : ScreenErr → String
  | .valueError m => m
  | .apiError m => m

/-- Embedding of `screen_resume` (`src/resume_screening.py` lines 24 to
70).  The external call `self.model.generate_content(prompt)` is the
parameter `api`, applied to the two texts that the fixed prompt template
interpolates; its `Except.error` case is a raised API exception.  The
returned `Bool` records whether the API call was made. -/
def screen_resume (api : String → String → Except String String)
    (resume_text job_description_text : String) :
    Except ScreenErr String × Bool :=
  if resume_text == "" || job_description_text == "" then
    (.error (.valueError "Both resume text and job description text are required."), false)
  else
    match api resume_text job_description_text with
    | .ok t => (.ok t, true)
    | .error e =>
      (.error (.apiError ("Error generating content from Gemini API: " ++ e)), true)

/-- JSON values as produced by `json.loads` (numbers restricted to
integers, which covers every value this program handles). -/
inductive Json where
  | null
  | bool (b : Bool)
  | num (n : Int)
  | str (s : String)
  | arr (elems : List Json)
  | obj (fields : List (String × Json))

/-- Field lookup in a parsed JSON object, as `dict.get` finds a key
(`json.loads` gives each key one binding). -/
def lookupField : List (String × Json) → String → Option Json
  | [], _ => none
  | (k, v) :: rest, key => if k == key then some v else lookupField rest key

/-- Embedding of `parsed_result.get(key, default)` on a parsed JSON object. -/
def jsonGetD (fields : List (String × Json)) (key : String) (d : Json) : Json :=
  (lookupField fields key).getD d

/-- The Python type name of a JSON value, as it appears in runtime
error messages. -/
def pyTypeName : Json → String
  | .null => "NoneType"
  | .bool _ => "bool"
  | .num _ => "int"
  | .str _ => "str"
  | .arr _ => "list"
  | .obj _ => "dict"

/-- Python truthiness of a JSON value, deciding `if matched_skills:`. -/
def truthy : Json → Bool
  | .null => false
  | .bool b => b
  | .num n => n != 0
  | .str s => s != ""
  | .arr l => !l.isEmpty
  | .obj f => !f.isEmpty

/-- Whether `for skill in v:` iterates without raising `TypeError`. -/
def iterableJson : Json → Bool
  | .str _ => true
  | .arr _ => true
  | .obj _ => true
  | _ => false

/-- The flat record that `app.py` lines 100 to 132 renders: the values
bound to `score`, `summary`, `matched_skills` and `missing_skills`. -/
structure RenderedRecord where
  score : Json
  summary : Json
  matched_skills : Json
  missing_skills : Json

/-- The rendering block of `app.py` lines 100 to 132.  Each field is
fetched with `parsed_result.get` and its default.  A non-object parse
result makes the first `.get` raise `AttributeError`; a truthy
non-iterable skills value makes its `for` loop raise `TypeError`.
Either exception escapes the inner `try` (which only catches
`json.JSONDecodeError`) and is modelled as `Except.error` with the
runtime message. -/
def renderParsed (j : Json) : Except String RenderedRecord :=
  match j with
  | .obj fields =>
    let score := jsonGetD fields "score" (.num 0)
    let summary := jsonGetD fields "summary" (.str "No summary available")
    let matched := jsonGetD fields "matched_skills" (.arr [])
    let missing := jsonGetD fields "missing_skills" (.arr [])
    if truthy matched && !iterableJson matched then
      .error (pyTypeName matched ++ " object is not iterable")
    else if truthy missing && !iterableJson missing then
      .error (pyTypeName missing ++ " object is not iterable")
    else
      .ok ⟨score, summary, matched, missing⟩
  | _ => .error (pyTypeName j ++ " object has no attribute get")

/-- Observable events of one run of the Streamlit script. -/
inductive Ev where
  | writeTmp
  | extractResume
  | unlinkTmp
  | apiCall
  | warning (msg : String)
  | error (msg : String)
  | stop
  | success
  | displayResult (r : RenderedRecord)
  | showRaw (s : String)

/-- Lines 90 to 139 of `app.py`: handling of `result_text` after the API
call.  `parse` is `json.loads` restricted to a total function returning
`none` on `json.JSONDecodeError`. -/
def processResult (parse : String → Option Json) (result_text : String) : List Ev :=
  if result_text == "" then
    [.error "❌ No response received from the model."]
  else
    match parse (cleanResult result_text) with
    | none => [.error "❌ Failed to parse JSON from model output.", .showRaw result_text]
    | some j =>
      match renderParsed j with
      | .ok r => [.success, .displayResult r]
      | .error m => [.success, .error ("❌ Error calling Gemini API: " ++ m)]

/-- The `Evaluate Resume` click handler, `app.py` lines 45 to 145.
`resume_file` and `jd_file` say whether each upload is present,
`env`/`tmpPath` drive text extraction from the temporary resume copy,
`jdBytes` is `jd_file.read()`, and `api`/`parse` supply the two external
calls.  The `st.stop()` after a failed decode loop halts the script
before `os.unlink`, so that branch emits no `unlinkTmp` event. -/
def runEvaluate (resume_file jd_file : Bool) (env : ExtractEnv) (tmpPath : String)
    (jdBytes : List Nat) (api : String → String → Except String String)
    (parse : String → Option Json) : List Ev :=
  if !(resume_file && jd_file) then
    [.warning "Please upload both a resume and a job description!"]
  else
    let resume_text := extract_text_from_file env tmpPath
    match decodeLoop jdBytes with
    | none =>
      [.writeTmp, .extractResume,
        .error "❌ Could not decode job description file. Please save it as UTF-8 encoded text file.",
        .stop]
    | some jd_text =>
      [.writeTmp, .extractResume, .unlinkTmp] ++
        (if resume_text == "" || pyStrip resume_text == "" then
          [.error "❌ Failed to extract text from resume. Please check if the file is valid."]
        else if jd_text == "" || pyStrip jd_text == "" then
          [.error "❌ Job description appears to be empty."]
        else
          let res := screen_resume api resume_text jd_text
          (if res.2 then [.apiCall] else []) ++
            match res.1 with
            | .error e => [.error ("❌ Error calling Gemini API: " ++ screenErrMsg e)]
            | .ok result_text => processResult parse result_text)

/-- The model object built by `ResumeScreeningModel.__init__` once the
API key check has passed. -/
structure ResumeModel where
  apiKey : String

/-- Embedding of `ResumeScreeningModel.__init__`
(`src/resume_screening.py` lines 11 to 22): read the key from
`st.secrets.get("GEMINI_API_KEY", os.getenv("GEMINI_API_KEY"))` and
raise `ValueError` when the result is falsy (missing key or empty
string). -/
def resumeModelInit (secrets envv : String → Option String) : Except String ResumeModel :=
  let api_key : Option String :=
    match secrets "GEMINI_API_KEY" with
    | some v => some v
    | none => envv "GEMINI_API_KEY"
  match api_key with
  | none => .error "❌ GEMINI_API_KEY not found! Please add it to Streamlit Secrets or .env file."
  | some k =>
    if k == "" then
      .error "❌ GEMINI_API_KEY not found! Please add it to Streamlit Secrets or .env file."
    else
      .ok ⟨k⟩

/-- Embedding of `load_model` (`app.py` lines 11 to 19): catch the initialization
exception and return `None` in that case. -/
def load_model (secrets envv : String → Option String) : Option ResumeModel :=
  match resumeModelInit secrets envv with
  | .ok m => some m
  | .error _ => none

/-- Outcome of the startup check of `app.py` lines 33 to 36. -/
inductive StartResult where
  | stopped (msg : String)
  | running (m : ResumeModel)

/-- Lines 22 and 33 to 36 of `app.py`: build the model, and when it is
`None` show the startup error and call `st.stop()` before any upload
widget or button handler runs. -/
def appStart (secrets envv : String → Option String) : StartResult :=
  match load_model secrets envv with
  | none =>
    .stopped "❌ Failed to load the resume screening model. Please check your API key in .env file."
  | some m => .running m

/-- Event discriminator: error messages. -/
def isError : Ev → Bool
  | .error _ => true
  | _ => false

/-- Event discriminator: API invocations. -/
def isApiCall : Ev → Bool
  | .apiCall => true
  | _ => false

/-- Event discriminator: rendered evaluation results. -/
def isDisplay : Ev → Bool
  | .displayResult _ => true
  | _ => false

/-- Schema check on the score field: an integer between 0 and 100. -/
def scoreOk : Json → Bool
  | .num n => decide (0 ≤ n ∧ n ≤ 100)
  | _ => false

/-- Schema check: a JSON string. -/
def isStr : Json → Bool
  | .str _ => true
  | _ => false

/-- Schema check: a JSON list of strings. -/
def strList : Json → Bool
  | .arr xs => xs.all isStr
  | _ => false

/-- Schema check on a rendered record, following the shape requested by
the prompt of `screen_resume`: integer score between 0 and 100, string
summary, and string lists for both skill fields. -/
def wellFormed (r : RenderedRecord) : Bool :=
  scoreOk r.score && isStr r.summary && strList r.matched_skills &&
    strList r.missing_skills

/-! Helper lemmas shared by the claim theorems. -/

theorem pyStrip_of_empty : pyStrip "" = "" := rfl

theorem length_pos_of_pyStrip_ne (s : String) (h : pyStrip s ≠ "") : 0 < s.length := by
  rcases s with ⟨data⟩
  cases data with
  | nil => exact absurd rfl h
  | cons c cs => simp [String.length]

theorem errPrefix_length_pos (e : String) :
    0 < ("Error extracting text: " ++ e).length := by
  rw [String.length_append]
  have h : ("Error extracting text: " : String).length = 23 := rfl
  omega

/-- Concrete extraction environment used by the concrete-input theorems:
every path exists, DOCX parsing yields one paragraph, PDF parsing yields
no page. -/
def env0 : ExtractEnv :=
  ⟨fun _ => true, fun _ => .ok ["Python developer"], fun _ => .ok []⟩

/-- Concrete job-description bytes: the ASCII text `Need Python`. -/
def jdBytes0 : List Nat :=
  [78, 101, 101, 100, 32, 80, 121, 116, 104, 111, 110]

/-! Claim theorems. -/

/-- C9: `extract_text_from_file` is total at its public interface: the
embedding returns a plain `String` on every input (each internal
exception shows up as an `Except.error` of the environment and is
converted to an error-message string), and the returned string is
non-empty in every branch. -/
theorem c9_extract_total_nonempty (env : ExtractEnv) (path : String) :
    0 < (extract_text_from_file env path).length := by
  unfold extract_text_from_file
  split
  · decide
  · split
    · split
      · dsimp only
        split
        · decide
        · rename_i hne
          apply length_pos_of_pyStrip_ne
          simpa using hne
      · exact errPrefix_length_pos _
    · split
      · split
        · dsimp only
          split
          · decide
          · rename_i hne
            apply length_pos_of_pyStrip_ne
            simpa using hne
        · exact errPrefix_length_pos _
      · decide

/-- C10: `screen_resume` raises `ValueError` whenever one of the two
texts is empty, and the result does not depend on the API function, so
no API request is made for empty inputs (the `Bool` component `false`
records that the call site was not reached). -/
theorem c10_empty_inputs_raise (api : String → String → Except String String)
    (resume_text job_description_text : String)
    (h : resume_text = "" ∨ job_description_text = "") :
    screen_resume api resume_text job_description_text =
      (.error (.valueError "Both resume text and job description text are required."),
        false) ∧
    ∀ api2, screen_resume api2 resume_text job_description_text =
      screen_resume api resume_text job_description_text := by
  rcases h with h | h <;> subst h <;>
    exact ⟨by simp [screen_resume], fun api2 => by simp [screen_resume]⟩

theorem c10_empty_inputs_raise_witness :
    screen_resume (fun _ _ => .ok "response") "" "some job description" =
      (.error (.valueError "Both resume text and job description text are required."),
        false) :=
  (c10_empty_inputs_raise (fun _ _ => .ok "response") "" "some job description"
    (Or.inl rfl)).1

/-- C7: the API key is read from the Streamlit secrets store with the
environment as fallback; when both sources lack a usable key the
initializer raises and the application stops with a user-facing error
message, never reaching the running state that accepts requests. -/
theorem c7_api_key_startup :
    (∀ secrets envv : String → Option String,
      secrets "GEMINI_API_KEY" = none → envv "GEMINI_API_KEY" = none →
        resumeModelInit secrets envv =
          .error "❌ GEMINI_API_KEY not found! Please add it to Streamlit Secrets or .env file." ∧
        appStart secrets envv =
          .stopped "❌ Failed to load the resume screening model. Please check your API key in .env file." ∧
        ∀ m, appStart secrets envv ≠ .running m) ∧
    (∀ (secrets envv : String → Option String) (k : String),
      secrets "GEMINI_API_KEY" = some k → k ≠ "" →
        resumeModelInit secrets envv = .ok ⟨k⟩) ∧
    (∀ (secrets envv : String → Option String) (k : String),
      secrets "GEMINI_API_KEY" = none → envv "GEMINI_API_KEY" = some k → k ≠ "" →
        resumeModelInit secrets envv = .ok ⟨k⟩) := by
  refine ⟨fun secrets envv hs he => ?_, fun secrets envv k hs hk => ?_,
    fun secrets envv k hs he hk => ?_⟩
  · have hinit : resumeModelInit secrets envv =
        .error "❌ GEMINI_API_KEY not found! Please add it to Streamlit Secrets or .env file." := by
      simp [resumeModelInit, hs, he]
    refine ⟨hinit, ?_, ?_⟩
    · simp [appStart, load_model, hinit]
    · intro m
      simp [appStart, load_model, hinit]
  · simp [resumeModelInit, hs, hk]
  · simp [resumeModelInit, hs, he, hk]

theorem c7_api_key_startup_witness :
    resumeModelInit (fun _ => none) (fun _ => none) =
      .error "❌ GEMINI_API_KEY not found! Please add it to Streamlit Secrets or .env file." ∧
    appStart (fun _ => none) (fun _ => none) =
      .stopped "❌ Failed to load the resume screening model. Please check your API key in .env file." := by
  have h := c7_api_key_startup.1 (fun _ => none) (fun _ => none) rfl rfl
  exact ⟨h.1, h.2.1⟩

/-- C4: a valid PDF or DOCX file (one that exists, carries the matching
extension and parses to content with non-blank text) yields exactly the
extracted text, which is non-empty; a missing file, an unsupported
extension or a parser failure yields the corresponding descriptive
placeholder string instead of an exception. -/
theorem c4_extract_valid_and_placeholder :
    (∀ (env : ExtractEnv) (path : String) (paras : List String),
      env.fileExists path = true →
      pyEndsWith (pyLower path) ".docx" = true →
      env.docxParse path = .ok paras →
      pyStrip (String.intercalate "\n" (paras.filter (fun p => pyStrip p != ""))) ≠ "" →
        extract_text_from_file env path =
          String.intercalate "\n" (paras.filter (fun p => pyStrip p != "")) ∧
        0 < (extract_text_from_file env path).length) ∧
    (∀ (env : ExtractEnv) (path : String) (pages : List (Option String)),
      env.fileExists path = true →
      pyEndsWith (pyLower path) ".docx" = false →
      pyEndsWith (pyLower path) ".pdf" = true →
      env.pdfParse path = .ok pages →
      pyStrip (String.intercalate "\n" ((pages.filterMap id).filter (fun t => t != ""))) ≠ "" →
        extract_text_from_file env path =
          String.intercalate "\n" ((pages.filterMap id).filter (fun t => t != "")) ∧
        0 < (extract_text_from_file env path).length) ∧
    (∀ (env : ExtractEnv) (path : String),
      env.fileExists path = false →
        extract_text_from_file env path = "File not found.") ∧
    (∀ (env : ExtractEnv) (path : String),
      env.fileExists path = true →
      pyEndsWith (pyLower path) ".docx" = false →
      pyEndsWith (pyLower path) ".pdf" = false →
        extract_text_from_file env path =
          "Unsupported file format. Please use PDF or DOCX.") ∧
    (∀ (env : ExtractEnv) (path : String) (e : String),
      env.fileExists path = true →
      pyEndsWith (pyLower path) ".docx" = true →
      env.docxParse path = .error e →
        extract_text_from_file env path = "Error extracting text: " ++ e) := by
  refine ⟨fun env path paras hex hdx hok hne => ?_,
    fun env path pages hex hdx hpdf hok hne => ?_,
    fun env path hex => ?_,
    fun env path hex hdx hpdf => ?_,
    fun env path e hex hdx herr => ?_⟩
  · have heq : extract_text_from_file env path =
        String.intercalate "\n" (paras.filter (fun p => pyStrip p != "")) := by
      simp [extract_text_from_file, hex, hdx, hok, hne]
    exact ⟨heq, heq ▸ length_pos_of_pyStrip_ne _ hne⟩
  · have heq : extract_text_from_file env path =
        String.intercalate "\n" ((pages.filterMap id).filter (fun t => t != "")) := by
      simp [extract_text_from_file, hex, hdx, hpdf, hok, hne]
    exact ⟨heq, heq ▸ length_pos_of_pyStrip_ne _ hne⟩
  · simp [extract_text_from_file, hex]
  · simp [extract_text_from_file, hex, hdx, hpdf]
  · simp [extract_text_from_file, hex, hdx, herr]

theorem c4_extract_valid_and_placeholder_witness :
    extract_text_from_file env0 "resume.docx" = "Python developer" ∧
    extract_text_from_file
      ⟨fun _ => false, fun _ => .ok [], fun _ => .ok []⟩ "resume.docx" =
      "File not found." := by
  constructor
  · have h := c4_extract_valid_and_placeholder.1 env0 "resume.docx"
      ["Python developer"] rfl (by decide) rfl (by decide)
    calc extract_text_from_file env0 "resume.docx"
        = String.intercalate "\n"
            ((["Python developer"] : List String).filter (fun p => pyStrip p != "")) := h.1
      _ = "Python developer" := by decide
  · exact c4_extract_valid_and_placeholder.2.2.1
      ⟨fun _ => false, fun _ => .ok [], fun _ => .ok []⟩ "resume.docx" rfl

theorem decodeLoop_isSome (bs : List Nat) : ∃ t, decodeLoop bs = some t := by
  cases h1 : decodeWith Encoding.utf8 bs with
  | some t => exact ⟨t, by simp [decodeLoop, encodingsToTry, decodeLoopAux, h1]⟩
  | none =>
    cases h2 : decodeWith Encoding.utf8sig bs with
    | some t => exact ⟨t, by simp [decodeLoop, encodingsToTry, decodeLoopAux, h1, h2]⟩
    | none =>
      cases h3 : decodeWith Encoding.windows1252 bs with
      | some t =>
        exact ⟨t, by simp [decodeLoop, encodingsToTry, decodeLoopAux, h1, h2, h3]⟩
      | none =>
        have h4 : decodeWith Encoding.iso8859_1 bs = some (toStr bs) := rfl
        exact ⟨toStr bs,
          by simp [decodeLoop, encodingsToTry, decodeLoopAux, h1, h2, h3, h4]⟩

/-- C1: the decode loop tries the five encodings in list order and
returns the result of the first one that decodes without error; and on
a byte sequence that no listed encoding decodes, the handler reports the
decode error to the user and stops the request. -/
theorem c1_encoding_fallback (bs : List Nat) (s : String) (i : Nat)
    (hi : i < encodingsToTry.length)
    (hprev : ∀ j, j < i → decodeWith (encodingsToTry.getD j .utf8) bs = none)
    (hsucc : decodeWith (encodingsToTry.getD i .utf8) bs = some s) :
    decodeLoop bs = some s ∧
    ∀ (env : ExtractEnv) (tmpPath : String)
      (api : String → String → Except String String)
      (parse : String → Option Json) (bs2 : List Nat),
      decodeLoop bs2 = none →
      runEvaluate true true env tmpPath bs2 api parse =
        [.writeTmp, .extractResume,
         .error "❌ Could not decode job description file. Please save it as UTF-8 encoded text file.",
         .stop] := by
  constructor
  · have hi5 : i < 5 := hi
    interval_cases i
    · simp only [encodingsToTry, List.getD] at hsucc
      simp_all [decodeLoop, encodingsToTry, decodeLoopAux]
    · have h0 := hprev 0 (by omega)
      simp only [encodingsToTry, List.getD] at hsucc h0
      simp_all [decodeLoop, encodingsToTry, decodeLoopAux]
    · have h0 := hprev 0 (by omega)
      have h1 := hprev 1 (by omega)
      simp only [encodingsToTry, List.getD] at hsucc h0 h1
      simp_all [decodeLoop, encodingsToTry, decodeLoopAux]
    · have h0 := hprev 0 (by omega)
      have h1 := hprev 1 (by omega)
      have h2 := hprev 2 (by omega)
      simp only [encodingsToTry, List.getD] at hsucc h0 h1 h2
      simp_all [decodeLoop, encodingsToTry, decodeLoopAux]
    · have h0 := hprev 0 (by omega)
      have h1 := hprev 1 (by omega)
      have h2 := hprev 2 (by omega)
      have h3 := hprev 3 (by omega)
      simp only [encodingsToTry, List.getD] at hsucc h0 h1 h2 h3
      simp_all [decodeLoop, encodingsToTry, decodeLoopAux]
  · intro env tmpPath api parse bs2 hnone
    simp [runEvaluate, hnone]

theorem c1_encoding_fallback_witness : decodeLoop [255] = some "ÿ" := by
  have h := c1_encoding_fallback [255] "ÿ" 2 (by decide)
    (by
      intro j hj
      interval_cases j <;> decide)
    (by decide)
  exact h.1

/-- C6: in every screening run with both files uploaded, the trace
writes the temporary resume file, then extracts text from it, then
deletes it: the only branch skipping the deletion (decode-loop failure
followed by `st.stop`) is unreachable because `iso-8859-1` decodes every
byte sequence, so no run leaves the temporary file behind. -/
theorem c6_tmpfile_lifecycle (env : ExtractEnv) (tmpPath : String) (jdBytes : List Nat)
    (api : String → String → Except String String) (parse : String → Option Json) :
    List.Sublist [Ev.writeTmp, Ev.extractResume, Ev.unlinkTmp]
      (runEvaluate true true env tmpPath jdBytes api parse) := by
  obtain ⟨t, ht⟩ := decodeLoop_isSome jdBytes
  simp only [runEvaluate, ht, Bool.and_self, Bool.not_true, Bool.false_eq_true,
    if_false, List.cons_append, List.nil_append]
  exact List.Sublist.cons₂ _ (List.Sublist.cons₂ _ (List.Sublist.cons₂ _
    (List.nil_sublist _)))

theorem emptyOrStrip (s : String) :
    (s == "" || pyStrip s == "") = (pyStrip s == "") := by
  by_cases h : s = ""
  · subst h; rfl
  · have hb : (s == "") = false := by simpa using h
    rw [hb, Bool.false_or]

theorem processResult_no_api (parse : String → Option Json) (t : String) :
    (processResult parse t).any isApiCall = false := by
  unfold processResult
  split
  · rfl
  · split
    · rfl
    · split
      · rfl
      · rfl

theorem processResult_display (parse : String → Option Json) (t : String)
    (r : RenderedRecord) (hmem : Ev.displayResult r ∈ processResult parse t) :
    t ≠ "" ∧ ∃ j, parse (cleanResult t) = some j ∧ renderParsed j = .ok r := by
  unfold processResult at hmem
  split at hmem
  · simp at hmem
  · rename_i hemp
    refine ⟨by simpa using hemp, ?_⟩
    split at hmem
    · simp at hmem
    · rename_i j hp
      split at hmem
      · rename_i r2 hr
        simp at hmem
        exact ⟨j, hp, by rw [hr, hmem]⟩
      · simp at hmem

/-- C8: the pipeline order is upload, extract, prompt, parse, display:
the API is called only in traces whose extracted resume text and decoded
job description are validated non-empty, with write, extract and unlink
preceding the call; and a result is displayed only when the API response
parsed and rendered, with the display event after the API call. -/
theorem c8_pipeline_order (resume_file jd_file : Bool) (env : ExtractEnv)
    (tmpPath : String) (jdBytes : List Nat)
    (api : String → String → Except String String) (parse : String → Option Json) :
    ((runEvaluate resume_file jd_file env tmpPath jdBytes api parse).any isApiCall = true →
      pyStrip (extract_text_from_file env tmpPath) ≠ "" ∧
      (∃ jd_text, decodeLoop jdBytes = some jd_text ∧ pyStrip jd_text ≠ "") ∧
      List.Sublist [Ev.writeTmp, Ev.extractResume, Ev.unlinkTmp, Ev.apiCall]
        (runEvaluate resume_file jd_file env tmpPath jdBytes api parse)) ∧
    (∀ r : RenderedRecord,
      Ev.displayResult r ∈ runEvaluate resume_file jd_file env tmpPath jdBytes api parse →
      ∃ jd_text result_text j,
        decodeLoop jdBytes = some jd_text ∧
        api (extract_text_from_file env tmpPath) jd_text = .ok result_text ∧
        parse (cleanResult result_text) = some j ∧
        renderParsed j = .ok r ∧
        List.Sublist [Ev.apiCall, Ev.displayResult r]
          (runEvaluate resume_file jd_file env tmpPath jdBytes api parse)) := by
  by_cases hup : (resume_file && jd_file) = true
  · obtain ⟨jd_text, ht⟩ := decodeLoop_isSome jdBytes
    by_cases hres : pyStrip (extract_text_from_file env tmpPath) = ""
    · have htr : runEvaluate resume_file jd_file env tmpPath jdBytes api parse =
          [.writeTmp, .extractResume, .unlinkTmp,
           .error "❌ Failed to extract text from resume. Please check if the file is valid."] := by
        simp [runEvaluate, hup, ht, hres]
      rw [htr]
      exact ⟨fun hany => absurd hany (by decide), fun r hmem => by simp at hmem⟩
    · have hextne : extract_text_from_file env tmpPath ≠ "" := by
        intro h
        apply hres
        rw [h]
        rfl
      by_cases hjd : pyStrip jd_text = ""
      · have htr : runEvaluate resume_file jd_file env tmpPath jdBytes api parse =
            [.writeTmp, .extractResume, .unlinkTmp,
             .error "❌ Job description appears to be empty."] := by
          simp [runEvaluate, hup, ht, hres, hextne, hjd]
        rw [htr]
        exact ⟨fun hany => absurd hany (by decide), fun r hmem => by simp at hmem⟩
      · have hjdne : jd_text ≠ "" := by
          intro h
          apply hjd
          rw [h]
          rfl
        cases hapi : api (extract_text_from_file env tmpPath) jd_text with
        | error e =>
          have htr : runEvaluate resume_file jd_file env tmpPath jdBytes api parse =
              [.writeTmp, .extractResume, .unlinkTmp, .apiCall,
               .error ("❌ Error calling Gemini API: " ++
                 ("Error generating content from Gemini API: " ++ e))] := by
            simp [runEvaluate, hup, ht, hres, hextne, hjd, hjdne, screen_resume,
              hapi, screenErrMsg]
          rw [htr]
          constructor
          · intro _
            exact ⟨hres, ⟨jd_text, ht, hjd⟩,
              List.Sublist.cons₂ _ (List.Sublist.cons₂ _ (List.Sublist.cons₂ _
                (List.Sublist.cons₂ _ (List.nil_sublist _))))⟩
          · intro r hmem
            simp at hmem
        | ok result_text =>
          have htr : runEvaluate resume_file jd_file env tmpPath jdBytes api parse =
              [.writeTmp, .extractResume, .unlinkTmp, .apiCall] ++
                processResult parse result_text := by
            simp [runEvaluate, hup, ht, hres, hextne, hjd, hjdne, screen_resume, hapi]
          rw [htr]
          constructor
          · intro _
            exact ⟨hres, ⟨jd_text, ht, hjd⟩, List.sublist_append_left _ _⟩
          · intro r hmem
            have hmem2 : Ev.displayResult r ∈ processResult parse result_text := by
              simp only [List.mem_append, List.mem_cons, List.not_mem_nil,
                or_false] at hmem
              rcases hmem with (h | h | h | h) | h
              · exact absurd h (by simp)
              · exact absurd h (by simp)
              · exact absurd h (by simp)
              · exact absurd h (by simp)
              · exact h
            obtain ⟨hne, j, hpj, hrj⟩ := processResult_display parse result_text r hmem2
            refine ⟨jd_text, result_text, j, ht, hapi, hpj, hrj, ?_⟩
            have hsingle : List.Sublist [Ev.displayResult r]
                (processResult parse result_text) :=
              List.singleton_sublist.mpr hmem2
            exact List.Sublist.cons _ (List.Sublist.cons _ (List.Sublist.cons _
              (List.Sublist.cons₂ _ hsingle)))
  · have htr : runEvaluate resume_file jd_file env tmpPath jdBytes api parse =
        [.warning "Please upload both a resume and a job description!"] := by
      simp [runEvaluate, hup]
    rw [htr]
    exact ⟨fun hany => absurd hany (by decide), fun r hmem => by simp at hmem⟩

/-- Concrete model response claiming a score above the prompt range. -/
def jsonScore150 : String := "\x7b\"score\": 150\x7d"

/-- Concrete API returning the over-range score response. -/
def api150 : String → String → Except String String :=
  fun _ _ => .ok jsonScore150

/-- Concrete `json.loads` agreeing with Python on the one input the
concrete runs reach: the over-range score object. -/
def parse150 : String → Option Json :=
  fun s => if s == jsonScore150 then some (.obj [("score", .num 150)]) else none

theorem c8_pipeline_order_witness :
    List.Sublist [Ev.writeTmp, Ev.extractResume, Ev.unlinkTmp, Ev.apiCall]
      (runEvaluate true true env0 "resume.docx" jdBytes0 api150 parse150) := by
  have h := (c8_pipeline_order true true env0 "resume.docx" jdBytes0 api150 parse150).1
    (by decide)
  exact h.2.2

theorem processResult_countP_api (parse : String → Option Json) (t : String) :
    List.countP isApiCall (processResult parse t) = 0 := by
  unfold processResult
  split
  · rfl
  · split
    · rfl
    · split
      · rfl
      · rfl

/-- C2 counterexample: when an upload is missing the run shows only a
warning, not an error message, so not every enumerated failure is shown
as an error message. -/
theorem c2_counterexample :
    runEvaluate false false env0 "resume.docx" jdBytes0 api150 parse150 =
      [Ev.warning "Please upload both a resume and a job description!"] ∧
    List.countP isError
      (runEvaluate false false env0 "resume.docx" jdBytes0 api150 parse150) = 0 := by
  exact ⟨rfl, rfl⟩

/-- C2 (amended): every failure of a screening run is caught and shown
to the user in that run — missing uploads as a warning, all the other
enumerated failures (undecodable encoding, empty extracted text,
API-call failure, empty response, malformed JSON) as error messages —
no run calls the API more than once, and every failure that precedes
the API call produces a trace without an API call. -/
theorem c2_failure_handling (resume_file jd_file : Bool) (env : ExtractEnv)
    (tmpPath : String) (jdBytes : List Nat)
    (api : String → String → Except String String) (parse : String → Option Json) :
    List.countP isApiCall
      (runEvaluate resume_file jd_file env tmpPath jdBytes api parse) ≤ 1 ∧
    ((resume_file && jd_file) = false →
      runEvaluate resume_file jd_file env tmpPath jdBytes api parse =
        [.warning "Please upload both a resume and a job description!"]) ∧
    ((resume_file && jd_file) = true → decodeLoop jdBytes = none →
      runEvaluate resume_file jd_file env tmpPath jdBytes api parse =
        [.writeTmp, .extractResume,
         .error "❌ Could not decode job description file. Please save it as UTF-8 encoded text file.",
         .stop]) ∧
    (∀ jd_text, (resume_file && jd_file) = true →
      decodeLoop jdBytes = some jd_text →
      pyStrip (extract_text_from_file env tmpPath) = "" →
      runEvaluate resume_file jd_file env tmpPath jdBytes api parse =
        [.writeTmp, .extractResume, .unlinkTmp,
         .error "❌ Failed to extract text from resume. Please check if the file is valid."]) ∧
    (∀ jd_text, (resume_file && jd_file) = true →
      decodeLoop jdBytes = some jd_text →
      pyStrip (extract_text_from_file env tmpPath) ≠ "" →
      pyStrip jd_text = "" →
      runEvaluate resume_file jd_file env tmpPath jdBytes api parse =
        [.writeTmp, .extractResume, .unlinkTmp,
         .error "❌ Job description appears to be empty."]) ∧
    (∀ jd_text e, (resume_file && jd_file) = true →
      decodeLoop jdBytes = some jd_text →
      pyStrip (extract_text_from_file env tmpPath) ≠ "" →
      pyStrip jd_text ≠ "" →
      api (extract_text_from_file env tmpPath) jd_text = .error e →
      runEvaluate resume_file jd_file env tmpPath jdBytes api parse =
        [.writeTmp, .extractResume, .unlinkTmp, .apiCall,
         .error ("❌ Error calling Gemini API: " ++
           ("Error generating content from Gemini API: " ++ e))]) ∧
    (∀ jd_text, (resume_file && jd_file) = true →
      decodeLoop jdBytes = some jd_text →
      pyStrip (extract_text_from_file env tmpPath) ≠ "" →
      pyStrip jd_text ≠ "" →
      api (extract_text_from_file env tmpPath) jd_text = .ok "" →
      runEvaluate resume_file jd_file env tmpPath jdBytes api parse =
        [.writeTmp, .extractResume, .unlinkTmp, .apiCall,
         .error "❌ No response received from the model."]) ∧
    (∀ jd_text result_text, (resume_file && jd_file) = true →
      decodeLoop jdBytes = some jd_text →
      pyStrip (extract_text_from_file env tmpPath) ≠ "" →
      pyStrip jd_text ≠ "" →
      api (extract_text_from_file env tmpPath) jd_text = .ok result_text →
      result_text ≠ "" →
      parse (cleanResult result_text) = none →
      runEvaluate resume_file jd_file env tmpPath jdBytes api parse =
        [.writeTmp, .extractResume, .unlinkTmp, .apiCall,
         .error "❌ Failed to parse JSON from model output.",
         .showRaw result_text]) := by
  have hextne : ∀ s : String, pyStrip s ≠ "" → s ≠ "" := by
    intro s hs h
    apply hs
    rw [h]
    rfl
  refine ⟨?_, ?_, ?_, ?_, ?_, ?_, ?_, ?_⟩
  · by_cases hup : (resume_file && jd_file) = true
    · obtain ⟨jd_text, ht⟩ := decodeLoop_isSome jdBytes
      by_cases hres : pyStrip (extract_text_from_file env tmpPath) = ""
      · rw [show runEvaluate resume_file jd_file env tmpPath jdBytes api parse =
            [.writeTmp, .extractResume, .unlinkTmp,
             .error "❌ Failed to extract text from resume. Please check if the file is valid."]
          from by simp [runEvaluate, hup, ht, hres]]
        decide
      · by_cases hjd : pyStrip jd_text = ""
        · rw [show runEvaluate resume_file jd_file env tmpPath jdBytes api parse =
              [.writeTmp, .extractResume, .unlinkTmp,
               .error "❌ Job description appears to be empty."]
            from by simp [runEvaluate, hup, ht, hres, hextne _ hres, hjd]]
          decide
        · cases hapi : api (extract_text_from_file env tmpPath) jd_text with
          | error e =>
            rw [show runEvaluate resume_file jd_file env tmpPath jdBytes api parse =
                [.writeTmp, .extractResume, .unlinkTmp, .apiCall,
                 .error ("❌ Error calling Gemini API: " ++
                   ("Error generating content from Gemini API: " ++ e))]
              from by
                simp [runEvaluate, hup, ht, hres, hextne _ hres, hjd, hextne _ hjd,
                  screen_resume, hapi, screenErrMsg]]
            show (1 : Nat) ≤ 1
            decide
          | ok result_text =>
            rw [show runEvaluate resume_file jd_file env tmpPath jdBytes api parse =
                [.writeTmp, .extractResume, .unlinkTmp, .apiCall] ++
                  processResult parse result_text
              from by
                simp [runEvaluate, hup, ht, hres, hextne _ hres, hjd, hextne _ hjd,
                  screen_resume, hapi]]
            rw [List.countP_append, processResult_countP_api]
            decide
    · rw [show runEvaluate resume_file jd_file env tmpPath jdBytes api parse =
          [.warning "Please upload both a resume and a job description!"]
        from by simp [runEvaluate, hup]]
      decide
  · intro hup
    simp [runEvaluate, hup]
  · intro hup hnone
    simp [runEvaluate, hup, hnone]
  · intro jd_text hup ht hres
    simp [runEvaluate, hup, ht, hres]
  · intro jd_text hup ht hres hjd
    simp [runEvaluate, hup, ht, hres, hextne _ hres, hjd]
  · intro jd_text e hup ht hres hjd hapi
    simp [runEvaluate, hup, ht, hres, hextne _ hres, hjd, hextne _ hjd,
      screen_resume, hapi, screenErrMsg]
  · intro jd_text hup ht hres hjd hapi
    simp [runEvaluate, hup, ht, hres, hextne _ hres, hjd, hextne _ hjd,
      screen_resume, hapi, processResult]
  · intro jd_text result_text hup ht hres hjd hapi hne hparse
    simp [runEvaluate, hup, ht, hres, hextne _ hres, hjd, hextne _ hjd,
      screen_resume, hapi, processResult, hne, hparse]

theorem c2_failure_handling_witness :
    runEvaluate true true env0 "resume.docx" [0xFF]
      (fun _ _ => .error "boom") parse150 =
      [Ev.writeTmp, Ev.extractResume, Ev.unlinkTmp, Ev.apiCall,
       Ev.error ("❌ Error calling Gemini API: " ++
         ("Error generating content from Gemini API: " ++ "boom"))] := by
  have h := (c2_failure_handling true true env0 "resume.docx" [0xFF]
    (fun _ _ => .error "boom") parse150).2.2.2.2.2.1
  exact h "ÿ" "boom" rfl (by decide) (by decide) (by decide) rfl

/-- Concrete `json.loads` agreeing with Python on a response that is a
JSON array rather than an object. -/
def parseArr : String → Option Json :=
  fun s => if s == "[1, 2]" then some (.arr [.num 1, .num 2]) else none

/-- C3 counterexample: a model response that parses as a JSON array is
not rendered into the four fields; the first `.get` raises
`AttributeError`, which surfaces as the API-error message, and no
result is displayed. -/
theorem c3_counterexample :
    processResult parseArr "[1, 2]" =
      [Ev.success,
       Ev.error "❌ Error calling Gemini API: list object has no attribute get"] ∧
    List.countP isDisplay (processResult parseArr "[1, 2]") = 0 :=
  ⟨rfl, rfl⟩

/-- C3 (amended): for every non-empty model response whose fence-stripped
text parses as a JSON object whose skill fields, after defaulting, are
lists, the post-processing step strips the markdown code-fence markers,
parses the remainder as JSON and renders the four fields, substituting
0 for an absent score, the placeholder summary for an absent summary and
the empty list for absent skill fields; a response parsing to a JSON
value that is not an object produces an error message instead. -/
theorem c3_json_postprocessing (parse : String → Option Json)
    (result_text : String) (fields : List (String × Json)) (ms mi : List Json)
    (hne : result_text ≠ "")
    (hparse : parse (cleanResult result_text) = some (.obj fields))
    (hms : jsonGetD fields "matched_skills" (.arr []) = .arr ms)
    (hmi : jsonGetD fields "missing_skills" (.arr []) = .arr mi) :
    processResult parse result_text =
      [.success, .displayResult
        ⟨jsonGetD fields "score" (.num 0),
         jsonGetD fields "summary" (.str "No summary available"),
         .arr ms, .arr mi⟩] ∧
    cleanResult ("```json\n" ++ "\x7b\"score\": 5\x7d" ++ "\n```") =
      "\x7b\"score\": 5\x7d" := by
  constructor
  · have hrender : renderParsed (.obj fields) = .ok
        ⟨jsonGetD fields "score" (.num 0),
         jsonGetD fields "summary" (.str "No summary available"),
         .arr ms, .arr mi⟩ := by
      unfold renderParsed
      dsimp only
      rw [hms, hmi]
      simp [iterableJson]
    unfold processResult
    rw [if_neg (by simpa using hne), hparse]
    show (match renderParsed (Json.obj fields) with
      | Except.ok r => [Ev.success, Ev.displayResult r]
      | Except.error m =>
        [Ev.success, Ev.error ("❌ Error calling Gemini API: " ++ m)]) = _
    rw [hrender]
  · decide

theorem c3_json_postprocessing_witness :
    processResult parse150 jsonScore150 =
      [Ev.success, Ev.displayResult
        ⟨Json.num 150, Json.str "No summary available", Json.arr [], Json.arr []⟩] := by
  have h := (c3_json_postprocessing parse150 jsonScore150
    [("score", Json.num 150)] [] [] (by decide) rfl rfl rfl).1
  exact h

/-- C5 counterexample: the code renders whatever score the parsed JSON
carries, so a response with score 150 is displayed unchanged even
though 150 is not between 0 and 100. -/
theorem c5_counterexample :
    runEvaluate true true env0 "resume.docx" jdBytes0 api150 parse150 =
      [Ev.writeTmp, Ev.extractResume, Ev.unlinkTmp, Ev.apiCall, Ev.success,
       Ev.displayResult
         ⟨Json.num 150, Json.str "No summary available", Json.arr [], Json.arr []⟩] ∧
    scoreOk (Json.num 150) = false :=
  ⟨rfl, rfl⟩

theorem strList_no_render_error (v : Json) (hv : strList v = true) :
    (truthy v && !iterableJson v) = false := by
  cases v with
  | arr xs => simp [iterableJson]
  | null => simp [strList] at hv
  | bool b => simp [strList] at hv
  | num n => simp [strList] at hv
  | str s => simp [iterableJson]
  | obj f => simp [strList] at hv

/-- C5 (amended): every rendered evaluation result is a flat record of
exactly the four fields taken from the parsed JSON object with the
documented defaults; the code does not validate them, but whenever each
present field conforms to the schema the prompt requests (integer score
between 0 and 100, string summary, string-list skills), the rendered
record conforms as well. -/
theorem c5_schema_preserved (fields : List (String × Json)) (r : RenderedRecord)
    (hscore : ∀ v, lookupField fields "score" = some v → scoreOk v = true)
    (hsum : ∀ v, lookupField fields "summary" = some v → isStr v = true)
    (hmat : ∀ v, lookupField fields "matched_skills" = some v → strList v = true)
    (hmiss : ∀ v, lookupField fields "missing_skills" = some v → strList v = true)
    (hr : renderParsed (.obj fields) = .ok r) :
    wellFormed r = true := by
  have h1 : scoreOk (jsonGetD fields "score" (.num 0)) = true := by
    cases hs : lookupField fields "score" with
    | none => simp [jsonGetD, hs]; decide
    | some v =>
      have := hscore v hs
      simpa [jsonGetD, hs] using this
  have h2 : isStr (jsonGetD fields "summary" (.str "No summary available")) = true := by
    cases hs : lookupField fields "summary" with
    | none => simp [jsonGetD, hs]; decide
    | some v =>
      have := hsum v hs
      simpa [jsonGetD, hs] using this
  have h3 : strList (jsonGetD fields "matched_skills" (.arr [])) = true := by
    cases hs : lookupField fields "matched_skills" with
    | none => simp [jsonGetD, hs]; decide
    | some v =>
      have := hmat v hs
      simpa [jsonGetD, hs] using this
  have h4 : strList (jsonGetD fields "missing_skills" (.arr [])) = true := by
    cases hs : lookupField fields "missing_skills" with
    | none => simp [jsonGetD, hs]; decide
    | some v =>
      have := hmiss v hs
      simpa [jsonGetD, hs] using this
  unfold renderParsed at hr
  dsimp only at hr
  rw [strList_no_render_error _ h3, strList_no_render_error _ h4] at hr
  simp only [Bool.false_eq_true, if_false] at hr
  have hrec :
      (⟨jsonGetD fields "score" (.num 0),
        jsonGetD fields "summary" (.str "No summary available"),
        jsonGetD fields "matched_skills" (.arr []),
        jsonGetD fields "missing_skills" (.arr [])⟩ : RenderedRecord) = r := by
    exact Except.ok.inj hr
  rw [← hrec]
  simp [wellFormed, h1, h2, h3, h4]

theorem c5_schema_preserved_witness :
    wellFormed
      ⟨Json.num 88, Json.str "good fit", Json.arr [Json.str "python"], Json.arr []⟩ =
      true := by
  apply c5_schema_preserved
    [("score", Json.num 88), ("summary", Json.str "good fit"),
     ("matched_skills", Json.arr [Json.str "python"])]
  · intro v hv
    simp [lookupField] at hv
    rw [← hv]
    decide
  · intro v hv
    simp [lookupField] at hv
    rw [← hv]
    decide
  · intro v hv
    simp [lookupField] at hv
    rw [← hv]
    decide
  · intro v hv
    simp [lookupField] at hv
  · rfl

end ResumeScreening
